import Mathlib

/-!
Verification of the WZ-Risk API scoring core (`src/wzrisk-api/app.py`).

Shallow embedding conventions:
* Python floats are modelled as exact rationals (`ℚ`); decimal literals such
  as `0.15` denote the exact rational `3/20`.
* Timestamps (`published`, the evaluation instant `now`) are UTC epoch
  seconds as `ℤ`.  `datetime.now()` is passed explicitly as the `now`
  argument of every function that reads the clock.
* `timedelta.days` is floor division of the second difference by 86400,
  i.e. `Int.fdiv`.
* `round(x, 2)` and the `:.2f` / `:.1f` format specifiers round half to
  even, as Python does.
* `Optional` fields are `Option`; Python's `x or default` on enum-valued
  fields is `Option.getD` (enum members are truthy strings, `None` falsy).
-/

namespace WZRisk

/-- Enum `Crit` (app.py lines 37-41): asset criticality levels. -/
inductive Crit where
  | baixa
  | media
  | alta
  | critica
deriving DecidableEq

/-- String payload of each `Crit` member (`str`-valued enum). -/
def Crit.value : Crit → String
  | .baixa => "baixa"
  | .media => "media"
  | .alta => "alta"
  | .critica => "critica"

/-- Enum constructor `Crit(val)`: returns the member with that value,
`none` when `val` is not a member (Python raises `ValueError`). -/
def Crit.ofString (s : String) : Option Crit :=
  if s = "baixa" then some .baixa
  else if s = "media" then some .media
  else if s = "alta" then some .alta
  else if s = "critica" then some .critica
  else none

/-- Enum `Exposure` (app.py lines 44-47). -/
inductive Exposure where
  | internet
  | interna
  | isolada
deriving DecidableEq

/-- String payload of each `Exposure` member. -/
def Exposure.value : Exposure → String
  | .internet => "internet"
  | .interna => "interna"
  | .isolada => "isolada"

/-- Enum constructor `Exposure(val)` as an `Option`. -/
def Exposure.ofString (s : String) : Option Exposure :=
  if s = "internet" then some .internet
  else if s = "interna" then some .interna
  else if s = "isolada" then some .isolada
  else none

/-- The process-wide configuration read from the environment at startup
(app.py lines 70-78).  Modelled as an explicit record so that every
scoring function takes it as an argument. -/
structure Config where
  W_CVSS : ℚ
  W_CRIT : ℚ
  W_EXPO : ℚ
  W_RECENCY : ℚ
  B_EXPLOIT : ℚ
  B_ACTIVE : ℚ
  DEFAULT_CRIT : Crit
  DEFAULT_EXPO : Exposure

/-- `_env_float` (app.py lines 53-57): read `name` from the environment and
parse it as a float, falling back to `default` when unset or unparseable.
Python's `float(str)` parser is abstracted as `parseF`; an exception from
`float` is modelled as `parseF s = none`. -/
def env_float (parseF : String → Option ℚ) (env : String → Option String)
    (name : String) (default : ℚ) : ℚ :=
  match env name with
  | none => default
  | some s => (parseF s).getD default

/-- `_env_enum` (app.py lines 60-67): read `name` and convert it with the
enum constructor `ofStr`, falling back to `default` when unset or when the
value is not a member. -/
def env_enum {α : Type} (ofStr : String → Option α) (env : String → Option String)
    (name : String) (default : α) : α :=
  match env name with
  | none => default
  | some s => (ofStr s).getD default

/-- The configuration built at startup (app.py lines 70-78), from an
environment `env` and a float parser `parseF`. -/
def configFromEnv (parseF : String → Option ℚ) (env : String → Option String) : Config where
  W_CVSS := env_float parseF env "WZ_W_CVSS" 0.50
  W_CRIT := env_float parseF env "WZ_W_CRIT" 0.20
  W_EXPO := env_float parseF env "WZ_W_EXPO" 0.15
  W_RECENCY := env_float parseF env "WZ_W_RECENCY" 0.10
  B_EXPLOIT := env_float parseF env "WZ_B_EXPLOIT" 0.15
  B_ACTIVE := env_float parseF env "WZ_B_ACTIVE" 0.25
  DEFAULT_CRIT := env_enum Crit.ofString env "WZ_DEFAULT_CRIT" Crit.media
  DEFAULT_EXPO := env_enum Exposure.ofString env "WZ_DEFAULT_EXPO" Exposure.interna

/-- The built-in default configuration (no environment overrides). -/
def defaultConfig : Config where
  W_CVSS := 0.50
  W_CRIT := 0.20
  W_EXPO := 0.15
  W_RECENCY := 0.10
  B_EXPLOIT := 0.15
  B_ACTIVE := 0.25
  DEFAULT_CRIT := Crit.media
  DEFAULT_EXPO := Exposure.interna

/-- Input schema `FindingIn` (app.py lines 84-108).  `published` is epoch
seconds (already normalised to UTC by the `force_tz` validator, which is
the identity in this model). -/
structure FindingIn where
  id : String
  product : Option String
  host : Option String
  agent : Option String
  cvss : ℚ
  published : ℤ
  summary : Option String
  asset_criticality : Option Crit
  has_known_exploit : Bool
  is_actively_exploited : Bool
  exposure : Option Exposure
  years : Option ℚ

/-- Output schema `FindingOut` (app.py lines 111-117). -/
structure FindingOut where
  id : String
  product : Option String
  host : Option String
  agent : Option String
  cvss : ℚ
  published : ℤ
  summary : Option String
  has_known_exploit : Bool
  is_actively_exploited : Bool
  years : Option ℚ
  asset_criticality : Option Crit
  exposure : Option Exposure
  risk_score : ℚ
  risk_level : String
  explanation : String
  work_order : Option ℕ

/-- `CRIT_WEIGHTS` (app.py lines 123-128). -/
def CRIT_WEIGHTS : Crit → ℚ
  | .baixa => 0.2
  | .media => 0.5
  | .alta => 0.8
  | .critica => 1.0

/-- `EXPO_WEIGHTS` (app.py lines 130-134). -/
def EXPO_WEIGHTS : Exposure → ℚ
  | .isolada => 0.2
  | .interna => 0.6
  | .internet => 1.0

/-- `clamp` (app.py lines 137-138). -/
def clamp (x : ℚ) (lo : ℚ := 0) (hi : ℚ := 1) : ℚ :=
  max lo (min hi x)

/-- `years_since` (app.py lines 141-144): `(now - pub).days / 365.25`,
with `timedelta.days` being floor division of the second difference by
86400. -/
def years_since (now pub : ℤ) : ℚ :=
  (((now - pub).fdiv 86400 : ℤ) : ℚ) / 365.25

/-- Rounding half to even at integer precision, as Python's `round` and
`format` do on exact values. -/
def roundHalfEven (q : ℚ) : ℤ :=
  if q - ⌊q⌋ < 1/2 then ⌊q⌋
  else if 1/2 < q - ⌊q⌋ then ⌊q⌋ + 1
  else if ⌊q⌋ % 2 = 0 then ⌊q⌋ else ⌊q⌋ + 1

/-- Python `round(x, 2)` on the exact value. -/
def round2 (q : ℚ) : ℚ :=
  ((roundHalfEven (q * 100) : ℤ) : ℚ) / 100

/-- Python `int(x)`: truncation toward zero. -/
def truncInt (q : ℚ) : ℤ :=
  if q < 0 then -⌊-q⌋ else ⌊q⌋

/-- The `:.{d}f` fixed-point format specifier on the exact value: sign of
the (pre-rounding) input, then the digits of the half-even rounding at `d`
decimals, zero-padded. -/
def formatFixed (d : ℕ) (q : ℚ) : String :=
  let n := roundHalfEven (q * (10 : ℚ) ^ d)
  let m := n.natAbs
  let sign := if q < 0 then "-" else ""
  let ip := m / 10 ^ d
  let fp := m % 10 ^ d
  let fpStr := toString fp
  let pad := String.mk (List.replicate (d - fpStr.length) '0')
  if d = 0 then sign ++ toString ip
  else sign ++ toString ip ++ "." ++ pad ++ fpStr

/-- `data.asset_criticality or DEFAULT_CRIT` (app.py line 148): enum
members are truthy, `None` is falsy, so this is `Option.getD`. -/
def resolvedCrit (cfg : Config) (data : FindingIn) : Crit :=
  data.asset_criticality.getD cfg.DEFAULT_CRIT

/-- `data.exposure or DEFAULT_EXPO` (app.py line 149). -/
def resolvedExpo (cfg : Config) (data : FindingIn) : Exposure :=
  data.exposure.getD cfg.DEFAULT_EXPO

/-- `yrs` (app.py line 155): `years_since(published)` when `years` is
absent, else `max(0.0, years)`. -/
def effYears (now : ℤ) (data : FindingIn) : ℚ :=
  match data.years with
  | none => years_since now data.published
  | some y => max 0 y

/-- `recency_factor` (app.py line 156). -/
def recencyFactor (yrs : ℚ) : ℚ :=
  clamp (1 - clamp (yrs / 10))

/-- `recency_msg` (app.py lines 158-165). -/
def recencyMsg (yrs : ℚ) : String :=
  if yrs ≤ 1 then
    "A vulnerabilidade é muito recente (~" ++ formatFixed 2 yrs ++ " ano)."
  else if yrs ≤ 3 then
    "Publicada há " ++ formatFixed 2 yrs ++ " anos (ainda recente)."
  else if yrs ≤ 10 then
    "Publicada há " ++ formatFixed 2 yrs ++ " anos (perde peso com a idade)."
  else
    "Antiga (~" ++ formatFixed 2 yrs ++ " anos), impacto por recência é baixo."

/-- `base` after the two bonus additions (app.py lines 167-176). -/
def rawBase (cfg : Config) (now : ℤ) (data : FindingIn) : ℚ :=
  let base := cfg.W_CVSS * clamp (data.cvss / 10)
    + cfg.W_CRIT * CRIT_WEIGHTS (resolvedCrit cfg data)
    + cfg.W_EXPO * EXPO_WEIGHTS (resolvedExpo cfg data)
    + cfg.W_RECENCY * recencyFactor (effYears now data)
  let base := if data.has_known_exploit then base + cfg.B_EXPLOIT else base
  if data.is_actively_exploited then base + cfg.B_ACTIVE else base

/-- `score = clamp(base) * 100.0` (app.py line 178). -/
def rawScore (cfg : Config) (now : ℤ) (data : FindingIn) : ℚ :=
  clamp (rawBase cfg now data) * 100

/-- The tier thresholds (app.py lines 180-187). -/
def levelOf (score : ℚ) : String :=
  if score ≥ 90 then "CRITICAL"
  else if score ≥ 70 then "HIGH"
  else if score ≥ 40 then "MEDIUM"
  else "LOW"

/-- The explanation sentences `expl` (app.py lines 189-198), joined with a
space. -/
def explText (cfg : Config) (now : ℤ) (data : FindingIn) : String :=
  let crit_w := CRIT_WEIGHTS (resolvedCrit cfg data)
  let expo_w := EXPO_WEIGHTS (resolvedExpo cfg data)
  let yrs := effYears now data
  let score := rawScore cfg now data
  let expl : List String :=
    ["CVSS informado: " ++ formatFixed 1 data.cvss ++ " (peso "
        ++ formatFixed 2 cfg.W_CVSS ++ ").",
      "Criticidade do ativo: " ++ (resolvedCrit cfg data).value ++ " (fator "
        ++ formatFixed 2 crit_w ++ ", peso " ++ formatFixed 2 cfg.W_CRIT ++ ").",
      "Exposição: " ++ (resolvedExpo cfg data).value ++ " (fator "
        ++ formatFixed 2 expo_w ++ ", peso " ++ formatFixed 2 cfg.W_EXPO ++ ").",
      "Recência: " ++ recencyMsg yrs ++ " (peso "
        ++ formatFixed 2 cfg.W_RECENCY ++ ")."]
    ++ (if data.has_known_exploit then
          ["Há exploit conhecido (+" ++ toString (truncInt (cfg.B_EXPLOIT * 100))
            ++ " pontos base)."] else [])
    ++ (if data.is_actively_exploited then
          ["Exploração ativa em campo (+" ++ toString (truncInt (cfg.B_ACTIVE * 100))
            ++ " pontos base)."] else [])
    ++ ["Score final: " ++ formatFixed 2 score ++ " → nível " ++ levelOf score ++ "."]
  String.intercalate " " expl

/-- `calc_score` (app.py lines 147-200): returns
`(score, level, explanation, asset_crit, exposure)`. -/
def calc_score (cfg : Config) (now : ℤ) (data : FindingIn) :
    ℚ × String × String × Crit × Exposure :=
  (rawScore cfg now data, levelOf (rawScore cfg now data), explText cfg now data,
    resolvedCrit cfg data, resolvedExpo cfg data)

/-- `score_endpoint` (app.py lines 230-241): single-item scoring; echoes
the input with the resolved enums, the two-decimal rounded score, the
level, the explanation, and no `work_order`. -/
def score_endpoint (cfg : Config) (now : ℤ) (inp : FindingIn) : FindingOut :=
  let r := calc_score cfg now inp
  { id := inp.id
    product := inp.product
    host := inp.host
    agent := inp.agent
    cvss := inp.cvss
    published := inp.published
    summary := inp.summary
    has_known_exploit := inp.has_known_exploit
    is_actively_exploited := inp.is_actively_exploited
    years := inp.years
    asset_criticality := some r.2.2.2.1
    exposure := some r.2.2.2.2
    risk_score := round2 r.1
    risk_level := r.2.1
    explanation := r.2.2.1
    work_order := none }

/-- `level_rank` lookup `{"CRITICAL": 0, "HIGH": 1, "MEDIUM": 2, "LOW": 3}`
(app.py line 253).  `calc_score` only produces these four strings, so the
catch-all branch is unreachable on the values this is applied to. -/
def levelRankOf (lvl : String) : ℕ :=
  if lvl = "CRITICAL" then 0
  else if lvl = "HIGH" then 1
  else if lvl = "MEDIUM" then 2
  else if lvl = "LOW" then 3
  else 4

/-- One element of the `ranked` list built by `score_batch` (app.py lines
251-267): the seven sort-key components followed by the response object. -/
structure BatchEntry where
  levelRank : ℕ
  negScore : ℚ
  negActive : ℤ
  negKnown : ℤ
  negExpo : ℚ
  negCrit : ℚ
  idx : ℕ
  res : FindingOut

/-- The tuple appended to `ranked` for input position `idx` (app.py lines
252-267). -/
def mkEntry (cfg : Config) (now : ℤ) (idx : ℕ) (item : FindingIn) : BatchEntry :=
  let r := calc_score cfg now item
  { levelRank := levelRankOf r.2.1
    negScore := -r.1
    negActive := -(if item.is_actively_exploited then 1 else 0)
    negKnown := -(if item.has_known_exploit then 1 else 0)
    negExpo := -(EXPO_WEIGHTS r.2.2.2.2)
    negCrit := -(CRIT_WEIGHTS r.2.2.2.1)
    idx := idx
    res :=
      { id := item.id
        product := item.product
        host := item.host
        agent := item.agent
        cvss := item.cvss
        published := item.published
        summary := item.summary
        has_known_exploit := item.has_known_exploit
        is_actively_exploited := item.is_actively_exploited
        years := item.years
        asset_criticality := some r.2.2.2.1
        exposure := some r.2.2.2.2
        risk_score := round2 r.1
        risk_level := r.2.1
        explanation := r.2.2.1
        work_order := none } }

/-- The `for idx, item in enumerate(payload.items)` loop that builds
`ranked` (app.py lines 251-267), with the running index made explicit. -/
def buildEntries (cfg : Config) (now : ℤ) : ℕ → List FindingIn → List BatchEntry
  | _, [] => []
  | idx, item :: rest => mkEntry cfg now idx item :: buildEntries cfg now (idx + 1) rest

/-- The sort key of an entry: the first seven tuple components, compared
as Python compares tuples, i.e. lexicographically. -/
def entryKey (e : BatchEntry) :
    Lex (ℕ × Lex (ℚ × Lex (ℤ × Lex (ℤ × Lex (ℚ × Lex (ℚ × ℕ)))))) :=
  toLex (e.levelRank, toLex (e.negScore, toLex (e.negActive, toLex (e.negKnown,
    toLex (e.negExpo, toLex (e.negCrit, e.idx))))))

/-- The comparison used by `ranked.sort(key=lambda t: (t[0], ..., t[6]))`
(app.py line 269). -/
def keyLe (a b : BatchEntry) : Bool :=
  decide (entryKey a ≤ entryKey b)

/-- The `for i, obj in enumerate(ordered, start=1): obj.work_order = i`
loop (app.py lines 271-272). -/
def assignRanks : ℕ → List FindingOut → List FindingOut
  | _, [] => []
  | i, o :: rest => { o with work_order := some i } :: assignRanks (i + 1) rest

/-- The `ranked` list of `score_batch` for a request body `items`. -/
def batchEntries (cfg : Config) (now : ℤ) (items : List FindingIn) : List BatchEntry :=
  buildEntries cfg now 0 items

/-- The `ranked` list after `ranked.sort(...)` (app.py line 269).  Python's
sort is stable, and the key includes the distinct input index as its last
component, so the sorted list is the unique permutation of `ranked` that is
sorted under `keyLe`; `List.mergeSort` computes it. -/
def batchSorted (cfg : Config) (now : ℤ) (items : List FindingIn) : List BatchEntry :=
  (batchEntries cfg now items).mergeSort keyLe

/-- `score_batch` (app.py lines 248-273). -/
def score_batch (cfg : Config) (now : ℤ) (items : List FindingIn) : List FindingOut :=
  assignRanks 1 ((batchSorted cfg now items).map (·.res))

/-- Input schema `CVECheckIn` of the compatibility endpoint (app.py lines
276-294): the same twelve fields as `FindingIn`. -/
structure CVECheckIn where
  id : String
  cvss : ℚ
  published : ℤ
  summary : Option String
  product : Option String
  host : Option String
  agent : Option String
  has_known_exploit : Bool
  is_actively_exploited : Bool
  asset_criticality : Option Crit
  exposure : Option Exposure
  years : Option ℚ

/-- `FindingIn(**inp.dict())` (app.py line 299): the field-for-field
translation of a compat record into a `FindingIn`. -/
def CVECheckIn.toFindingIn (inp : CVECheckIn) : FindingIn :=
  { id := inp.id
    product := inp.product
    host := inp.host
    agent := inp.agent
    cvss := inp.cvss
    published := inp.published
    summary := inp.summary
    asset_criticality := inp.asset_criticality
    has_known_exploit := inp.has_known_exploit
    is_actively_exploited := inp.is_actively_exploited
    exposure := inp.exposure
    years := inp.years }

/-- `cve_check_endpoint` (app.py lines 297-309). -/
def cve_check_endpoint (cfg : Config) (now : ℤ) (inp : CVECheckIn) : FindingOut :=
  let as_finding := inp.toFindingIn
  let r := calc_score cfg now as_finding
  { id := as_finding.id
    product := as_finding.product
    host := as_finding.host
    agent := as_finding.agent
    cvss := as_finding.cvss
    published := as_finding.published
    summary := as_finding.summary
    has_known_exploit := as_finding.has_known_exploit
    is_actively_exploited := as_finding.is_actively_exploited
    years := as_finding.years
    asset_criticality := some r.2.2.2.1
    exposure := some r.2.2.2.2
    risk_score := round2 r.1
    risk_level := r.2.1
    explanation := r.2.2.1
    work_order := none }

/-- Ordering of the criticality tiers (low to critical), used to state
monotonicity claims. -/
def critRank : Crit → ℕ
  | .baixa => 0
  | .media => 1
  | .alta => 2
  | .critica => 3

/-- Ordering of the exposure tiers (isolated to internet-facing). -/
def expoRank : Exposure → ℕ
  | .isolada => 0
  | .interna => 1
  | .internet => 2

/-- Builder for concrete test findings (fixed labels, varying scoring
attributes). -/
def mkFinding (c : ℚ) (pub : ℤ) (crit : Option Crit) (expo : Option Exposure)
    (known active : Bool) (yrs : Option ℚ) : FindingIn :=
  { id := "CVE-TEST"
    product := none
    host := none
    agent := none
    cvss := c
    published := pub
    summary := none
    asset_criticality := crit
    has_known_exploit := known
    is_actively_exploited := active
    exposure := expo
    years := yrs }

/-- Finding whose exact score is 69.996: its rounded `risk_score` is 70.00
while its tier is computed from the exact score. -/
def cxFinding : FindingIn :=
  mkFinding 8.1992 0 (some .media) (some .interna) false false (some 0)

/-- Finding whose exact score is 69.99. -/
def b69Finding : FindingIn :=
  mkFinding 8.198 0 (some .media) (some .interna) false false (some 0)

/-- The concrete scenario of the spec: CVSS 9.8, critical asset,
internet-facing, published at the evaluation instant, both exploit flags. -/
def f6Finding : FindingIn :=
  mkFinding 9.8 0 (some .critica) (some .internet) true true none

/-- Finding with an explicit `years` override, for the determinism claim. -/
def d7Finding : FindingIn :=
  mkFinding 5 0 none none false false (some 1)

/-- Finding published one day in the future of evaluation instant 0. -/
def d10Finding : FindingIn :=
  mkFinding 5 86400 none none false false none

/-- Finding with CVSS 0, for the negative-weight counterexample. -/
def cx5Finding : FindingIn :=
  mkFinding 0 0 (some .media) (some .interna) false false (some 0)

/-- Finding used twice in a batch, for the tie-stability witness. -/
def w4Finding : FindingIn :=
  mkFinding 5 0 none none false false (some 0)

/-- Default configuration with the CVSS weight overridden to -1 (the
startup parser accepts any float, including negative ones). -/
def cfgNeg : Config :=
  { defaultConfig with W_CVSS := -1 }

/-- Environment in which every variable is set to a malformed value. -/
def env0 : String → Option String := fun _ => some "not-a-number"

/-- Float parser that rejects everything (models `float` raising on every
input it is given here). -/
def parse0 : String → Option ℚ := fun _ => none

/-! ## Helper lemmas -/

lemma clamp01_nonneg (x : ℚ) : 0 ≤ clamp x :=
  le_max_left 0 _

lemma clamp01_le_one (x : ℚ) : clamp x ≤ 1 :=
  max_le (by norm_num) (min_le_left 1 x)

lemma clamp_mono {x y : ℚ} (h : x ≤ y) : clamp x ≤ clamp y :=
  max_le_max le_rfl (min_le_min le_rfl h)

lemma roundHalfEven_ge {q : ℚ} {n : ℤ} (h : (n : ℚ) ≤ q) : n ≤ roundHalfEven q := by
  have hf : n ≤ ⌊q⌋ := Int.le_floor.mpr h
  unfold roundHalfEven
  split_ifs <;> omega

lemma roundHalfEven_le {q : ℚ} {n : ℤ} (h : q ≤ (n : ℚ)) : roundHalfEven q ≤ n := by
  have hf : ⌊q⌋ ≤ n := by
    have := Int.floor_mono h
    simpa using this
  unfold roundHalfEven
  split_ifs with h1 h2 h3
  · exact hf
  · have hq : (⌊q⌋ : ℚ) + 1/2 < q := by linarith
    have hlt : (⌊q⌋ : ℚ) < (n : ℚ) := by linarith
    have : ⌊q⌋ < n := by exact_mod_cast hlt
    omega
  · exact hf
  · have hq : (⌊q⌋ : ℚ) + 1/2 ≤ q := by linarith
    have hlt : (⌊q⌋ : ℚ) < (n : ℚ) := by linarith
    have : ⌊q⌋ < n := by exact_mod_cast hlt
    omega

lemma roundHalfEven_eq_low {q : ℚ} {n : ℤ} (hn : ⌊q⌋ = n) (h : q - n < 1/2) :
    roundHalfEven q = n := by
  unfold roundHalfEven
  rw [hn, if_pos h]

lemma roundHalfEven_eq_high {q : ℚ} {n : ℤ} (hn : ⌊q⌋ = n) (h : 1/2 < q - n) :
    roundHalfEven q = n + 1 := by
  unfold roundHalfEven
  rw [hn, if_neg (by linarith), if_pos h]

lemma rawScore_nonneg (cfg : Config) (now : ℤ) (data : FindingIn) :
    0 ≤ rawScore cfg now data :=
  mul_nonneg (clamp01_nonneg _) (by norm_num)

lemma rawScore_le_100 (cfg : Config) (now : ℤ) (data : FindingIn) :
    rawScore cfg now data ≤ 100 := by
  have h := clamp01_le_one (rawBase cfg now data)
  have := mul_le_mul_of_nonneg_right h (by norm_num : (0:ℚ) ≤ 100)
  simpa [rawScore] using this

lemma round2_nonneg {q : ℚ} (h : 0 ≤ q) : 0 ≤ round2 q := by
  have h1 : (0 : ℤ) ≤ roundHalfEven (q * 100) :=
    roundHalfEven_ge (by push_cast; linarith)
  have h2 : (0 : ℚ) ≤ (roundHalfEven (q * 100) : ℚ) := by exact_mod_cast h1
  unfold round2
  positivity

lemma round2_le_100 {q : ℚ} (h : q ≤ 100) : round2 q ≤ 100 := by
  have h1 : roundHalfEven (q * 100) ≤ (10000 : ℤ) :=
    roundHalfEven_le (by push_cast; linarith)
  have h2 : (roundHalfEven (q * 100) : ℚ) ≤ 10000 := by exact_mod_cast h1
  unfold round2
  linarith

lemma score_endpoint_risk_score (cfg : Config) (now : ℤ) (inp : FindingIn) :
    (score_endpoint cfg now inp).risk_score = round2 (rawScore cfg now inp) := rfl

lemma score_endpoint_risk_level (cfg : Config) (now : ℤ) (inp : FindingIn) :
    (score_endpoint cfg now inp).risk_level = levelOf (rawScore cfg now inp) := rfl

lemma levelOf_spec (s : ℚ) :
    (levelOf s = "CRITICAL" ↔ 90 ≤ s) ∧
    (levelOf s = "HIGH" ↔ 70 ≤ s ∧ s < 90) ∧
    (levelOf s = "MEDIUM" ↔ 40 ≤ s ∧ s < 70) ∧
    (levelOf s = "LOW" ↔ s < 40) := by
  unfold levelOf
  split_ifs with h1 h2 h3 <;>
    refine ⟨?_, ?_, ?_, ?_⟩ <;>
      simp_all <;> first | linarith | (intro h; linarith)

/-! ## Claim theorems -/

/-- C2: for every finding and every configuration of weights, bonuses and
defaults, the calculator's score — raw and as reported after two-decimal
rounding — lies in [0, 100]. -/
theorem score_in_range (cfg : Config) (now : ℤ) (data : FindingIn) :
    0 ≤ rawScore cfg now data ∧ rawScore cfg now data ≤ 100 ∧
    0 ≤ (score_endpoint cfg now data).risk_score ∧
    (score_endpoint cfg now data).risk_score ≤ 100 := by
  refine ⟨rawScore_nonneg cfg now data, rawScore_le_100 cfg now data, ?_, ?_⟩
  · rw [score_endpoint_risk_score]
    exact round2_nonneg (rawScore_nonneg cfg now data)
  · rw [score_endpoint_risk_score]
    exact round2_le_100 (rawScore_le_100 cfg now data)

/-- C9: the compatibility endpoint `/cve/check` maps its record onto the
same `FindingIn` shape and returns exactly the same scored finding as the
single-item `/score` endpoint, with no rank. -/
theorem cve_check_matches_score (cfg : Config) (now : ℤ) (inp : CVECheckIn) :
    cve_check_endpoint cfg now inp = score_endpoint cfg now inp.toFindingIn ∧
    (cve_check_endpoint cfg now inp).work_order = none :=
  ⟨rfl, rfl⟩

/-- C7: scoring the same finding twice with the same explicit `years`
value and the same configuration yields identical results — the evaluation
instant is not consulted when `years` is supplied, so the whole
score/tier/explanation tuple is independent of it. -/
theorem calc_score_deterministic (cfg : Config) (n1 n2 : ℤ) (data : FindingIn)
    (y : ℚ) (h : data.years = some y) :
    calc_score cfg n1 data = calc_score cfg n2 data := by
  have he : effYears n1 data = effYears n2 data := by
    unfold effYears
    rw [h]
  have hb : rawBase cfg n1 data = rawBase cfg n2 data := by
    unfold rawBase
    rw [he]
  have hs : rawScore cfg n1 data = rawScore cfg n2 data := by
    unfold rawScore
    rw [hb]
  have hx : explText cfg n1 data = explText cfg n2 data := by
    unfold explText
    rw [he, hs]
  unfold calc_score
  rw [hs, hx]

/-- Witness for C7 at a concrete finding with `years = 1`, evaluated at
two instants a year apart. -/
theorem calc_score_deterministic_witness :
    calc_score defaultConfig 0 d7Finding = calc_score defaultConfig 31536000 d7Finding :=
  calc_score_deterministic defaultConfig 0 31536000 d7Finding 1 rfl

/-- C10: when `years` is absent and the publication timestamp lies in the
future of the evaluation instant, the derived age is negative (it is not
floored at 0), the recency factor is its maximum 1, and the score is still
within [0, 100]. -/
theorem future_published_negative_age (cfg : Config) (now : ℤ) (data : FindingIn)
    (h1 : data.years = none) (h2 : now < data.published) :
    effYears now data < 0 ∧ recencyFactor (effYears now data) = 1 ∧
    0 ≤ rawScore cfg now data ∧ rawScore cfg now data ≤ 100 := by
  have hy : effYears now data = years_since now data.published := by
    unfold effYears
    rw [h1]
  have hneg : years_since now data.published < 0 := by
    unfold years_since
    have hd : now - data.published < 0 := by omega
    have hdiv : (now - data.published).fdiv 86400 < 0 := by
      rw [Int.fdiv_eq_ediv _ (by norm_num)]
      exact Int.ediv_neg' hd (by norm_num)
    have hc : ((((now - data.published).fdiv 86400 : ℤ)) : ℚ) < 0 := by exact_mod_cast hdiv
    have : (0:ℚ) < 365.25 := by norm_num
    exact div_neg_of_neg_of_pos hc this
  refine ⟨hy ▸ hneg, ?_, rawScore_nonneg cfg now data, rawScore_le_100 cfg now data⟩
  rw [hy]
  have hq : years_since now data.published / 10 < 0 := by linarith
  unfold recencyFactor
  rw [show clamp (years_since now data.published / 10) = 0 from ?_]
  · unfold clamp
    norm_num
  · unfold clamp
    rw [min_eq_right (by linarith), max_eq_left (by linarith)]

/-- Witness for C10: a finding published one day after evaluation
instant 0. -/
theorem future_published_negative_age_witness :
    effYears 0 d10Finding < 0 ∧ recencyFactor (effYears 0 d10Finding) = 1 ∧
    0 ≤ rawScore defaultConfig 0 d10Finding ∧ rawScore defaultConfig 0 d10Finding ≤ 100 :=
  future_published_negative_age defaultConfig 0 d10Finding rfl (by decide)

/-- C8: a configuration override that is unset, malformed (float parse
failure) or not an enum member falls back to the built-in default; a
recognised value is taken as given; with no overrides the startup
configuration is exactly the built-in default.  All the startup readers
are total functions, so startup never fails. -/
theorem env_override_fallback (parseF : String → Option ℚ) (env : String → Option String)
    (name : String) (dF : ℚ) (dC : Crit) (dE : Exposure) :
    (env name = none → env_float parseF env name dF = dF ∧
      env_enum Crit.ofString env name dC = dC ∧
      env_enum Exposure.ofString env name dE = dE) ∧
    (∀ s, env name = some s → parseF s = none → env_float parseF env name dF = dF) ∧
    (∀ s q, env name = some s → parseF s = some q → env_float parseF env name dF = q) ∧
    (∀ s, env name = some s → Crit.ofString s = none →
      env_enum Crit.ofString env name dC = dC) ∧
    (∀ s c, env name = some s → Crit.ofString s = some c →
      env_enum Crit.ofString env name dC = c) ∧
    (∀ s, env name = some s → Exposure.ofString s = none →
      env_enum Exposure.ofString env name dE = dE) ∧
    (∀ s e, env name = some s → Exposure.ofString s = some e →
      env_enum Exposure.ofString env name dE = e) ∧
    configFromEnv parseF (fun _ => none) = defaultConfig := by
  refine ⟨?_, ?_, ?_, ?_, ?_, ?_, ?_, rfl⟩
  · intro h
    unfold env_float env_enum
    rw [h]
    exact ⟨rfl, rfl, rfl⟩
  · intro s h1 h2
    unfold env_float
    rw [h1]
    simp [h2]
  · intro s v h1 h2
    unfold env_float
    rw [h1]
    simp [h2]
  · intro s h1 h2
    unfold env_enum
    rw [h1]
    simp [h2]
  · intro s c h1 h2
    unfold env_enum
    rw [h1]
    simp [h2]
  · intro s h1 h2
    unfold env_enum
    rw [h1]
    simp [h2]
  · intro s e h1 h2
    unfold env_enum
    rw [h1]
    simp [h2]

/-- Witness for C8: the malformed override "not-a-number" falls back to
the default for both a float weight and an enum default. -/
theorem env_override_fallback_witness :
    env_float parse0 env0 "WZ_W_CVSS" 0.5 = 0.5 ∧
    env_enum Crit.ofString env0 "WZ_DEFAULT_CRIT" Crit.media = Crit.media :=
  ⟨(env_override_fallback parse0 env0 "WZ_W_CVSS" 0.5 Crit.media Exposure.interna).2.1
      "not-a-number" rfl rfl,
    (env_override_fallback parse0 env0 "WZ_DEFAULT_CRIT" 0.5 Crit.media Exposure.interna).2.2.2.1
      "not-a-number" rfl (by decide)⟩

lemma rawBase_eq (cfg : Config) (now : ℤ) (data : FindingIn) :
    rawBase cfg now data =
      cfg.W_CVSS * clamp (data.cvss / 10)
      + cfg.W_CRIT * CRIT_WEIGHTS (resolvedCrit cfg data)
      + cfg.W_EXPO * EXPO_WEIGHTS (resolvedExpo cfg data)
      + cfg.W_RECENCY * recencyFactor (effYears now data)
      + (if data.has_known_exploit then cfg.B_EXPLOIT else 0)
      + (if data.is_actively_exploited then cfg.B_ACTIVE else 0) := by
  simp only [rawBase]
  split_ifs <;> ring

lemma CRIT_WEIGHTS_mono {a b : Crit} (h : critRank a ≤ critRank b) :
    CRIT_WEIGHTS a ≤ CRIT_WEIGHTS b := by
  cases a <;> cases b <;> simp_all [critRank, CRIT_WEIGHTS] <;> norm_num

lemma EXPO_WEIGHTS_mono {a b : Exposure} (h : expoRank a ≤ expoRank b) :
    EXPO_WEIGHTS a ≤ EXPO_WEIGHTS b := by
  cases a <;> cases b <;> simp_all [expoRank, EXPO_WEIGHTS] <;> norm_num

lemma recencyFactor_anti {u v : ℚ} (h : u ≤ v) : recencyFactor v ≤ recencyFactor u := by
  unfold recencyFactor
  have h1 : clamp (u / 10) ≤ clamp (v / 10) := clamp_mono (by linarith)
  exact clamp_mono (by linarith)

lemma rawScore_le_rawScore {cfg : Config} {n n' : ℤ} {d d' : FindingIn}
    (h : rawBase cfg n d ≤ rawBase cfg n' d') :
    rawScore cfg n d ≤ rawScore cfg n' d' := by
  unfold rawScore
  exact mul_le_mul_of_nonneg_right (clamp_mono h) (by norm_num)

/-- C5 (amended): the score is monotone in CVSS, criticality tier,
exposure tier, age decrease and each exploit flag, for every configuration
whose weights and bonuses are nonnegative (which includes the built-in
defaults). -/
theorem score_monotone_nonneg (cfg : Config) (now : ℤ) (data : FindingIn)
    (hW1 : 0 ≤ cfg.W_CVSS) (hW2 : 0 ≤ cfg.W_CRIT) (hW3 : 0 ≤ cfg.W_EXPO)
    (hW4 : 0 ≤ cfg.W_RECENCY) (hB1 : 0 ≤ cfg.B_EXPLOIT) (hB2 : 0 ≤ cfg.B_ACTIVE) :
    (∀ c c' : ℚ, c ≤ c' →
      rawScore cfg now { data with cvss := c } ≤ rawScore cfg now { data with cvss := c' }) ∧
    (∀ a b : Crit, critRank a ≤ critRank b →
      rawScore cfg now { data with asset_criticality := some a } ≤
        rawScore cfg now { data with asset_criticality := some b }) ∧
    (∀ a b : Exposure, expoRank a ≤ expoRank b →
      rawScore cfg now { data with exposure := some a } ≤
        rawScore cfg now { data with exposure := some b }) ∧
    (∀ y y' : ℚ, y' ≤ y →
      rawScore cfg now { data with years := some y } ≤
        rawScore cfg now { data with years := some y' }) ∧
    (rawScore cfg now { data with has_known_exploit := false } ≤
      rawScore cfg now { data with has_known_exploit := true }) ∧
    (rawScore cfg now { data with is_actively_exploited := false } ≤
      rawScore cfg now { data with is_actively_exploited := true }) := by
  refine ⟨?_, ?_, ?_, ?_, ?_, ?_⟩
  · intro c c' hcc
    apply rawScore_le_rawScore
    simp only [rawBase_eq, resolvedCrit, resolvedExpo, effYears]
    have h2 : cfg.W_CVSS * clamp (c / 10) ≤ cfg.W_CVSS * clamp (c' / 10) :=
      mul_le_mul_of_nonneg_left (clamp_mono (by linarith)) hW1
    linarith
  · intro a b hab
    apply rawScore_le_rawScore
    simp only [rawBase_eq, resolvedCrit, resolvedExpo, effYears, Option.getD_some]
    have h2 : cfg.W_CRIT * CRIT_WEIGHTS a ≤ cfg.W_CRIT * CRIT_WEIGHTS b :=
      mul_le_mul_of_nonneg_left (CRIT_WEIGHTS_mono hab) hW2
    linarith
  · intro a b hab
    apply rawScore_le_rawScore
    simp only [rawBase_eq, resolvedCrit, resolvedExpo, effYears, Option.getD_some]
    have h2 : cfg.W_EXPO * EXPO_WEIGHTS a ≤ cfg.W_EXPO * EXPO_WEIGHTS b :=
      mul_le_mul_of_nonneg_left (EXPO_WEIGHTS_mono hab) hW3
    linarith
  · intro y y' hyy
    apply rawScore_le_rawScore
    simp only [rawBase_eq, resolvedCrit, resolvedExpo, effYears]
    have hm : max 0 y' ≤ max 0 y := max_le_max le_rfl hyy
    have h2 : cfg.W_RECENCY * recencyFactor (max 0 y) ≤
        cfg.W_RECENCY * recencyFactor (max 0 y') :=
      mul_le_mul_of_nonneg_left (recencyFactor_anti hm) hW4
    linarith
  · apply rawScore_le_rawScore
    simp only [rawBase_eq, resolvedCrit, resolvedExpo, effYears]
    simp only [Bool.false_eq_true, if_false, if_true]
    linarith
  · apply rawScore_le_rawScore
    simp only [rawBase_eq, resolvedCrit, resolvedExpo, effYears]
    simp only [Bool.false_eq_true, if_false, if_true]
    linarith

/-- Witness for C5 (amended) at the default configuration: raising CVSS
from 3 to 7 does not decrease the score. -/
theorem score_monotone_nonneg_witness :
    rawScore defaultConfig 0 { d7Finding with cvss := 3 } ≤
      rawScore defaultConfig 0 { d7Finding with cvss := 7 } :=
  (score_monotone_nonneg defaultConfig 0 d7Finding (by norm_num [defaultConfig])
    (by norm_num [defaultConfig]) (by norm_num [defaultConfig])
    (by norm_num [defaultConfig]) (by norm_num [defaultConfig])
    (by norm_num [defaultConfig])).1 3 7 (by norm_num)

/-- C5 counterexample: with the CVSS weight overridden to the (accepted)
value -1, increasing CVSS from 0 to 10 strictly decreases the score, so
the claim is false for general configurations. -/
theorem score_monotone_cx :
    cx5Finding.cvss < ({ cx5Finding with cvss := 10 } : FindingIn).cvss ∧
    rawScore cfgNeg 0 { cx5Finding with cvss := 10 } < rawScore cfgNeg 0 cx5Finding := by
  constructor
  · show (0 : ℚ) < 10
    norm_num
  · have h1 : rawBase cfgNeg 0 { cx5Finding with cvss := 10 } = -0.71 := by
      simp only [rawBase_eq, resolvedCrit, resolvedExpo, effYears, recencyFactor, clamp,
        cx5Finding, mkFinding, cfgNeg, defaultConfig, CRIT_WEIGHTS, EXPO_WEIGHTS,
        Option.getD_some]
      norm_num [min_def, max_def]
    have h2 : rawBase cfgNeg 0 cx5Finding = 0.29 := by
      simp only [rawBase_eq, resolvedCrit, resolvedExpo, effYears, recencyFactor, clamp,
        cx5Finding, mkFinding, cfgNeg, defaultConfig, CRIT_WEIGHTS, EXPO_WEIGHTS,
        Option.getD_some]
      norm_num [min_def, max_def]
    unfold rawScore
    rw [h1, h2]
    unfold clamp
    norm_num [min_def, max_def]

/-- C1 (amended): the tier reported by the endpoint is the fixed step
function of the exact (pre-rounding) score, with thresholds 40, 70, 90
inclusive on the lower bound; and a reported two-decimal `risk_score` of
69.99 does imply tier MEDIUM.  (A reported `risk_score` of 70.00 does not
imply HIGH; see the counterexample.) -/
theorem risk_level_thresholds (cfg : Config) (now : ℤ) (inp : FindingIn) :
    ((score_endpoint cfg now inp).risk_level = "CRITICAL" ↔ 90 ≤ rawScore cfg now inp) ∧
    ((score_endpoint cfg now inp).risk_level = "HIGH" ↔
      70 ≤ rawScore cfg now inp ∧ rawScore cfg now inp < 90) ∧
    ((score_endpoint cfg now inp).risk_level = "MEDIUM" ↔
      40 ≤ rawScore cfg now inp ∧ rawScore cfg now inp < 70) ∧
    ((score_endpoint cfg now inp).risk_level = "LOW" ↔ rawScore cfg now inp < 40) ∧
    ((score_endpoint cfg now inp).risk_score = 69.99 →
      (score_endpoint cfg now inp).risk_level = "MEDIUM") := by
  obtain ⟨hc, hh, hm, hl⟩ := levelOf_spec (rawScore cfg now inp)
  rw [score_endpoint_risk_level]
  refine ⟨hc, hh, hm, hl, ?_⟩
  intro h
  rw [score_endpoint_risk_score] at h
  unfold round2 at h
  rw [div_eq_iff (by norm_num : (100:ℚ) ≠ 0)] at h
  norm_num at h
  have hcast : roundHalfEven (rawScore cfg now inp * 100) = 6999 := by exact_mod_cast h
  have h70 : rawScore cfg now inp < 70 := by
    by_contra hge
    push_neg at hge
    have : (7000 : ℤ) ≤ roundHalfEven (rawScore cfg now inp * 100) :=
      roundHalfEven_ge (by push_cast; linarith)
    omega
  have h40 : 40 ≤ rawScore cfg now inp := by
    by_contra hlt
    push_neg at hlt
    have : roundHalfEven (rawScore cfg now inp * 100) ≤ (4000 : ℤ) :=
      roundHalfEven_le (by push_cast; linarith)
    omega
  exact hm.mpr ⟨h40, h70⟩

/-- Witness for C1 (amended): a finding with exact score 69.99 reports
`risk_score` 69.99 and tier MEDIUM. -/
theorem risk_level_thresholds_witness :
    (score_endpoint defaultConfig 0 b69Finding).risk_score = 69.99 ∧
    (score_endpoint defaultConfig 0 b69Finding).risk_level = "MEDIUM" := by
  have hb : rawBase defaultConfig 0 b69Finding = 0.6999 := by
    simp only [rawBase_eq, resolvedCrit, resolvedExpo, effYears, recencyFactor, clamp,
      b69Finding, mkFinding, defaultConfig, CRIT_WEIGHTS, EXPO_WEIGHTS, Option.getD_some]
    norm_num [min_def, max_def]
  have hs : rawScore defaultConfig 0 b69Finding = 69.99 := by
    unfold rawScore
    rw [hb]
    unfold clamp
    norm_num [min_def, max_def]
  have hrs : (score_endpoint defaultConfig 0 b69Finding).risk_score = 69.99 := by
    rw [score_endpoint_risk_score, hs]
    unfold round2
    rw [roundHalfEven_eq_low (n := 6999) (by rw [Int.floor_eq_iff]; norm_num)
      (by push_cast; norm_num)]
    norm_num
  exact ⟨hrs, (risk_level_thresholds defaultConfig 0 b69Finding).2.2.2.2 hrs⟩

/-- C1 counterexample: a finding with exact score 69.996 reports the
two-decimal-rounded `risk_score` 70.00, yet its tier is MEDIUM, not HIGH —
the tier is computed from the exact score before rounding. -/
theorem rounded_score_70_not_high :
    (score_endpoint defaultConfig 0 cxFinding).risk_score = 70 ∧
    (score_endpoint defaultConfig 0 cxFinding).risk_level = "MEDIUM" ∧
    (score_endpoint defaultConfig 0 cxFinding).risk_level ≠ "HIGH" := by
  have hb : rawBase defaultConfig 0 cxFinding = 0.69996 := by
    simp only [rawBase_eq, resolvedCrit, resolvedExpo, effYears, recencyFactor, clamp,
      cxFinding, mkFinding, defaultConfig, CRIT_WEIGHTS, EXPO_WEIGHTS, Option.getD_some]
    norm_num [min_def, max_def]
  have hs : rawScore defaultConfig 0 cxFinding = 69.996 := by
    unfold rawScore
    rw [hb]
    unfold clamp
    norm_num [min_def, max_def]
  have hlv : (score_endpoint defaultConfig 0 cxFinding).risk_level = "MEDIUM" := by
    rw [score_endpoint_risk_level, hs]
    unfold levelOf
    norm_num
  refine ⟨?_, hlv, ?_⟩
  · rw [score_endpoint_risk_score, hs]
    unfold round2
    rw [roundHalfEven_eq_high (n := 6999) (by rw [Int.floor_eq_iff]; norm_num)
      (by push_cast; norm_num)]
    norm_num
  · rw [hlv]
    decide

/-- C6: the spec's concrete scenario — CVSS 9.8, critical asset,
internet-facing, published at the evaluation instant, both exploit flags,
default weights — reaches base 1.34, clamps to 1, and yields score 100.00
with tier CRITICAL. -/
theorem concrete_critical_scenario :
    rawBase defaultConfig 0 f6Finding = 1.34 ∧
    clamp (rawBase defaultConfig 0 f6Finding) = 1 ∧
    (score_endpoint defaultConfig 0 f6Finding).risk_score = 100 ∧
    (score_endpoint defaultConfig 0 f6Finding).risk_level = "CRITICAL" := by
  have hb : rawBase defaultConfig 0 f6Finding = 1.34 := by
    simp only [rawBase_eq, resolvedCrit, resolvedExpo, effYears, recencyFactor, clamp,
      f6Finding, mkFinding, defaultConfig, CRIT_WEIGHTS, EXPO_WEIGHTS, Option.getD_some,
      years_since]
    norm_num [min_def, max_def, Int.zero_fdiv]
  have hcl : clamp (rawBase defaultConfig 0 f6Finding) = 1 := by
    rw [hb]
    unfold clamp
    norm_num [min_def, max_def]
  have hs : rawScore defaultConfig 0 f6Finding = 100 := by
    unfold rawScore
    rw [hcl]
    norm_num
  refine ⟨hb, hcl, ?_, ?_⟩
  · rw [score_endpoint_risk_score, hs]
    unfold round2
    rw [roundHalfEven_eq_low (n := 10000) (by rw [Int.floor_eq_iff]; norm_num)
      (by push_cast; norm_num)]
    norm_num
  · rw [score_endpoint_risk_level, hs]
    unfold levelOf
    norm_num

lemma keyLe_trans : ∀ a b c : BatchEntry,
    keyLe a b = true → keyLe b c = true → keyLe a c = true := by
  intro a b c h1 h2
  simp only [keyLe, decide_eq_true_eq] at h1 h2 ⊢
  exact le_trans h1 h2

lemma keyLe_total : ∀ a b : BatchEntry, (keyLe a b || keyLe b a) = true := by
  intro a b
  simp only [keyLe, Bool.or_eq_true, decide_eq_true_eq]
  exact le_total _ _

lemma keyLe_of_agree {a b : BatchEntry}
    (h1 : a.levelRank = b.levelRank) (h2 : a.negScore = b.negScore)
    (h3 : a.negActive = b.negActive) (h4 : a.negKnown = b.negKnown)
    (h5 : a.negExpo = b.negExpo) (h6 : a.negCrit = b.negCrit) :
    keyLe a b = true ↔ a.idx ≤ b.idx := by
  simp only [keyLe, decide_eq_true_eq, entryKey]
  simp [Prod.Lex.le_iff, h1, h2, h3, h4, h5, h6]

lemma buildEntries_length (cfg : Config) (now : ℤ) (items : List FindingIn) :
    ∀ k : ℕ, (buildEntries cfg now k items).length = items.length := by
  induction items with
  | nil => intro k; rfl
  | cons it rest ih => intro k; simp [buildEntries, ih (k + 1)]

lemma buildEntries_get? (cfg : Config) (now : ℤ) (items : List FindingIn) :
    ∀ k i : ℕ, (buildEntries cfg now k items).get? i =
      (items.get? i).map (fun it => mkEntry cfg now (k + i) it) := by
  induction items with
  | nil => intro k i; simp [buildEntries]
  | cons it rest ih =>
    intro k i
    cases i with
    | zero => simp [buildEntries]
    | succ n =>
      have hk : k + 1 + n = k + (n + 1) := by omega
      simp only [buildEntries, List.get?_cons_succ, ih (k + 1) n, hk]

lemma buildEntries_map_res_id (cfg : Config) (now : ℤ) (items : List FindingIn) :
    ∀ k : ℕ, (buildEntries cfg now k items).map (fun e => e.res.id) =
      items.map FindingIn.id := by
  induction items with
  | nil => intro k; rfl
  | cons it rest ih => intro k; simp [buildEntries, ih (k + 1), mkEntry]

lemma assignRanks_length (l : List FindingOut) :
    ∀ k : ℕ, (assignRanks k l).length = l.length := by
  induction l with
  | nil => intro k; rfl
  | cons o rest ih => intro k; simp [assignRanks, ih (k + 1)]

lemma assignRanks_map_id (l : List FindingOut) :
    ∀ k : ℕ, (assignRanks k l).map FindingOut.id = l.map FindingOut.id := by
  induction l with
  | nil => intro k; rfl
  | cons o rest ih => intro k; simp [assignRanks, ih (k + 1)]

lemma assignRanks_map_work_order (l : List FindingOut) :
    ∀ k : ℕ, (assignRanks k l).map FindingOut.work_order =
      (List.range' k l.length).map some := by
  induction l with
  | nil => intro k; rfl
  | cons o rest ih =>
    intro k
    simp only [assignRanks, List.map_cons, List.length_cons, List.range'_succ, ih (k + 1)]

/-- C3: batch ranking is length-preserving, returns a permutation of the
input (same multiset of identifiers), and assigns the `work_order` values
1, 2, …, N in output order — so the ranks are exactly the set {1,…,N},
each occurring once. -/
theorem score_batch_perm_ranks (cfg : Config) (now : ℤ) (items : List FindingIn) :
    (score_batch cfg now items).length = items.length ∧
    ((score_batch cfg now items).map FindingOut.id).Perm (items.map FindingIn.id) ∧
    (score_batch cfg now items).map FindingOut.work_order =
      (List.range' 1 items.length).map some := by
  have hperm : (batchSorted cfg now items).Perm (batchEntries cfg now items) :=
    List.mergeSort_perm _ _
  have hlen : (batchSorted cfg now items).length = items.length := by
    rw [hperm.length_eq]
    exact buildEntries_length cfg now items 0
  refine ⟨?_, ?_, ?_⟩
  · unfold score_batch
    rw [assignRanks_length, List.length_map, hlen]
  · unfold score_batch
    rw [assignRanks_map_id, List.map_map]
    have h1 : ((batchSorted cfg now items).map (FindingOut.id ∘ fun e => e.res)).Perm
        ((batchEntries cfg now items).map (FindingOut.id ∘ fun e => e.res)) :=
      hperm.map _
    have h2 : (batchEntries cfg now items).map (FindingOut.id ∘ fun e => e.res) =
        items.map FindingIn.id := by
      have h := buildEntries_map_res_id cfg now items 0
      simpa [Function.comp] using h
    rw [h2] at h1
    exact h1
  · unfold score_batch
    rw [assignRanks_map_work_order, List.length_map, hlen]

/-- C4: the batch sort key is the seven-component lexicographic composite
(tier rank, negated score, negated active flag, negated known flag,
negated exposure factor, negated criticality factor, input index); two
entries that agree on the first six components are ordered by input index,
so findings tied on tier, score, both flags, exposure and criticality keep
their original relative input order in the sorted output. -/
theorem score_batch_sort_stability (cfg : Config) (now : ℤ) (items : List FindingIn)
    (i j : ℕ) (hij : i < j) (ei ej : BatchEntry)
    (hei : (batchEntries cfg now items).get? i = some ei)
    (hej : (batchEntries cfg now items).get? j = some ej)
    (h1 : ei.levelRank = ej.levelRank) (h2 : ei.negScore = ej.negScore)
    (h3 : ei.negActive = ej.negActive) (h4 : ei.negKnown = ej.negKnown)
    (h5 : ei.negExpo = ej.negExpo) (h6 : ei.negCrit = ej.negCrit) :
    ei ∈ batchSorted cfg now items ∧ ej ∈ batchSorted cfg now items ∧
    ∀ p q : ℕ, (batchSorted cfg now items).get? p = some ei →
      (batchSorted cfg now items).get? q = some ej → p < q := by
  have hperm : (batchSorted cfg now items).Perm (batchEntries cfg now items) :=
    List.mergeSort_perm _ _
  have hidx_i : ei.idx = i := by
    have h := hei
    rw [show batchEntries cfg now items = buildEntries cfg now 0 items from rfl,
      buildEntries_get? cfg now items 0 i] at h
    obtain ⟨it, _, hmk⟩ := Option.map_eq_some'.mp h
    rw [← hmk]
    simp [mkEntry]
  have hidx_j : ej.idx = j := by
    have h := hej
    rw [show batchEntries cfg now items = buildEntries cfg now 0 items from rfl,
      buildEntries_get? cfg now items 0 j] at h
    obtain ⟨it, _, hmk⟩ := Option.map_eq_some'.mp h
    rw [← hmk]
    simp [mkEntry]
  have hne : ei ≠ ej := by
    intro hcontra
    rw [hcontra] at hidx_i
    omega
  have pw : List.Pairwise (fun a b => keyLe a b = true) (batchSorted cfg now items) :=
    List.sorted_mergeSort keyLe_trans keyLe_total (batchEntries cfg now items)
  refine ⟨hperm.mem_iff.mpr (List.get?_mem hei), hperm.mem_iff.mpr (List.get?_mem hej), ?_⟩
  intro p q hp hq
  by_contra hpq
  push_neg at hpq
  rcases eq_or_lt_of_le hpq with heq | hlt
  · subst heq
    exact hne (Option.some.inj (hp.symm.trans hq))
  · obtain ⟨hq', hget_q⟩ := List.get?_eq_some.mp hq
    obtain ⟨hp', hget_p⟩ := List.get?_eq_some.mp hp
    have hrel := List.pairwise_iff_get.mp pw ⟨q, hq'⟩ ⟨p, hp'⟩ hlt
    rw [hget_q, hget_p] at hrel
    have hle := (keyLe_of_agree h1.symm h2.symm h3.symm h4.symm h5.symm h6.symm).mp hrel
    rw [hidx_i, hidx_j] at hle
    omega

/-- Witness for C4: a batch of two identical findings; the two entries
agree on all six ranking keys, both appear in the sorted list, and the
first-submitted one precedes the second. -/
theorem score_batch_sort_stability_witness :
    mkEntry defaultConfig 0 0 w4Finding ∈
      batchSorted defaultConfig 0 [w4Finding, w4Finding] ∧
    mkEntry defaultConfig 0 1 w4Finding ∈
      batchSorted defaultConfig 0 [w4Finding, w4Finding] ∧
    ∀ p q : ℕ,
      (batchSorted defaultConfig 0 [w4Finding, w4Finding]).get? p =
        some (mkEntry defaultConfig 0 0 w4Finding) →
      (batchSorted defaultConfig 0 [w4Finding, w4Finding]).get? q =
        some (mkEntry defaultConfig 0 1 w4Finding) → p < q :=
  score_batch_sort_stability defaultConfig 0 [w4Finding, w4Finding] 0 1 (by omega)
    (mkEntry defaultConfig 0 0 w4Finding) (mkEntry defaultConfig 0 1 w4Finding)
    rfl rfl rfl rfl rfl rfl rfl rfl

end WZRisk
